import Mathlib

/-!
Verification of the coordinator-client RPC layer of RAMCloud
(src/CoordinatorClient.cc) and of the test network double
(src/MockDriver.cc), as a shallow embedding in Lean 4.

Each RPC operation is split, as in the source, into
  - a constructor (the "issue" phase): it builds the fixed-size request
    header plus any variable-length trailer and hands the request to the
    transport; modelled as a pure function returning the encoded request
    together with the list of transport-visible events it performs, and
  - a wait (the "complete" phase): it blocks until the response arrives,
    checks the response status and either decodes the result or raises a
    typed exception carrying the status; modelled as a pure function of
    the decoded response.

Machine integers are modelled as Nat with explicit reduction mod 2 ^ w
exactly where the source narrows a value (downCast).  Wire byte strings
are List Nat.
-/

namespace RAMCloud

/-- Status code for success, compared against by every wait in the source
(respHdr->common.status != STATUS_OK). -/
def STATUS_OK : Nat := 0

/-- Modelled from the spec: the distinguished "caller not in cluster"
status code consumed specially by verify-membership.  Its concrete value
is not under src/; it only matters that it differs from STATUS_OK. -/
def STATUS_CALLER_NOT_IN_CLUSTER : Nat := 30

/-- Modelled from the spec: the typed failure raised by a wait on a
non-success status, carrying the coordinator-reported status code
(ClientException::throwException is not under src/). -/
structure ClientException where
  status : Nat
  deriving DecidableEq

/-- The operation-type discriminator placed in every request header. -/
inductive Opcode where
  | enlistServer
  | getServerList
  | getTabletMap
  | hintServerDown
  | reassignTabletOwnership
  | recoveryMasterFinished
  | setMasterRecoveryInfo
  | verifyMembership
  deriving DecidableEq

/-- Transport-visible events performed by an RPC instance, in order.
Issuing performs allocHeader / appendRequestBytes / send; only a wait
performs the blocking waitForResponse (waitInternal in the source). -/
inductive RpcEvent where
  | allocHeader (op : Opcode)
  | appendRequestBytes (bytes : List Nat)
  | send
  | waitForResponse
  | logWarning
  deriving DecidableEq

/-- A cluster-unique server identity: a 64-bit value.  getId returns the
raw value, as ServerId::getId does. -/
structure ServerId where
  id : Nat
  deriving DecidableEq

def ServerId.getId (s : ServerId) : Nat := s.id

/-- Modelled from the spec: the 64-bit identifier is composed of a low
sequence-slot half and a high generation half (ServerId.h not under src/). -/
def ServerId.generationNumber (s : ServerId) : Nat := s.id / 2 ^ 32

/-- The service capabilities a server can offer (the two used by this
client). -/
inductive ServiceType where
  | MASTER_SERVICE
  | BACKUP_SERVICE
  deriving DecidableEq

def ServiceType.bit : ServiceType → Nat
  | .MASTER_SERVICE => 0
  | .BACKUP_SERVICE => 1

/-- A capability set, built from an explicit list of services as the
initializer lists in the source do. -/
structure ServiceMask where
  services : List ServiceType
  deriving DecidableEq

/-- Modelled from the spec: a ServiceMask is serialized as a compact
bitmask on the wire (ServiceMask.h not under src/). -/
def ServiceMask.serialize (m : ServiceMask) : Nat :=
  m.services.foldl (fun acc s => acc ||| (1 <<< s.bit)) 0

/-- C strncpy(dst, src, n) where src holds the bytes of a C string (the
terminating null not included in the list): copies bytes up to the first
null, then pads with nulls, writing exactly n bytes. -/
def strncpy (src : List Nat) (n : Nat) : List Nat :=
  (src.takeWhile (fun b => decide (b ≠ 0)) ++ List.replicate n 0).take n

/-! ## EnlistServer -/

/-- Fixed fields plus trailer of WireFormat::EnlistServer::Request as the
constructor fills them. -/
structure EnlistServerRequest where
  replacesId : Nat
  serviceMask : Nat
  readSpeed : Nat
  serviceLocatorLength : Nat
  trailer : List Nat
  deriving DecidableEq

/-- EnlistServerRpc::EnlistServerRpc (source lines 78-95): fills the
request header fields, appends the locator as a null-terminated C string
of serviceLocatorLength bytes via strncpy, and sends.  The length field
is downCast to uint32. -/
def EnlistServerRpc.construct (replacesId : ServerId) (serviceMask : ServiceMask)
    (localServiceLocator : List Nat) (readSpeed : Nat) :
    EnlistServerRequest × List RpcEvent :=
  let serviceLocatorLength := (localServiceLocator.length + 1) % 2 ^ 32
  let trailer := strncpy localServiceLocator serviceLocatorLength
  ({ replacesId := replacesId.getId,
     serviceMask := serviceMask.serialize,
     readSpeed := readSpeed,
     serviceLocatorLength := serviceLocatorLength,
     trailer := trailer },
   [.allocHeader .enlistServer, .appendRequestBytes trailer, .send])

/-- Fixed fields of WireFormat::EnlistServer::Response. -/
structure EnlistServerResponse where
  status : Nat
  serverId : Nat
  deriving DecidableEq

/-- EnlistServerRpc::wait (source lines 101-110): block for the response,
then throw on a non-OK status, else return ServerId(respHdr->serverId). -/
def EnlistServerRpc.wait (resp : EnlistServerResponse) :
    List RpcEvent × Except ClientException ServerId :=
  ([.waitForResponse],
   if resp.status ≠ STATUS_OK then .error ⟨resp.status⟩
   else .ok ⟨resp.serverId⟩)

/-- CoordinatorClient::enlistServer (source lines 45-53): construct the
rpc, then wait. -/
def CoordinatorClient.enlistServer (replacesId : ServerId) (serviceMask : ServiceMask)
    (localServiceLocator : List Nat) (readSpeed : Nat) (resp : EnlistServerResponse) :
    EnlistServerRequest × List RpcEvent × Except ClientException ServerId :=
  let rpc := EnlistServerRpc.construct replacesId serviceMask localServiceLocator readSpeed
  let w := EnlistServerRpc.wait resp
  (rpc.1, rpc.2 ++ w.1, w.2)

/-! ## GetServerList -/

/-- Fixed fields of WireFormat::GetServerList::Request. -/
structure GetServerListRequest where
  serviceMask : Nat
  deriving DecidableEq

/-- GetServerListRpc::GetServerListRpc (source lines 173-182): serialize
the capability filter into the serviceMask field and send. -/
def GetServerListRpc.construct (services : ServiceMask) :
    GetServerListRequest × List RpcEvent :=
  ({ serviceMask := services.serialize },
   [.allocHeader .getServerList, .send])

/-- Fixed fields of WireFormat::GetServerList::Response; the trailer holds
the serialized server list of serverListLength bytes. -/
structure GetServerListResponse where
  status : Nat
  serverListLength : Nat
  trailer : List Nat
  deriving DecidableEq

/-- GetServerListRpc::wait (source lines 192-202): block for the response,
throw on a non-OK status, else parse the trailer into the caller-supplied
output structure.  The output type and the ProtoBuf parser are external
collaborators, so both are parameters; the wait returns the (possibly
updated) output structure and the raised exception, if any. -/
def GetServerListRpc.wait {α : Type} (parseFromResponse : List Nat → Nat → α → α)
    (resp : GetServerListResponse) (serverList : α) :
    List RpcEvent × α × Option ClientException :=
  ([.waitForResponse],
   if resp.status ≠ STATUS_OK then (serverList, some ⟨resp.status⟩)
   else (parseFromResponse resp.trailer resp.serverListLength serverList, none))

/-- CoordinatorClient::getBackupList (source lines 120-126): query with
exactly the backup capability, then wait. -/
def CoordinatorClient.getBackupList {α : Type}
    (parseFromResponse : List Nat → Nat → α → α)
    (resp : GetServerListResponse) (serverList : α) :
    GetServerListRequest × List RpcEvent × α × Option ClientException :=
  let rpc := GetServerListRpc.construct ⟨[.BACKUP_SERVICE]⟩
  let w := GetServerListRpc.wait parseFromResponse resp serverList
  (rpc.1, rpc.2 ++ w.1, w.2)

/-- CoordinatorClient::getMasterList (source lines 136-142): query with
exactly the master capability, then wait. -/
def CoordinatorClient.getMasterList {α : Type}
    (parseFromResponse : List Nat → Nat → α → α)
    (resp : GetServerListResponse) (serverList : α) :
    GetServerListRequest × List RpcEvent × α × Option ClientException :=
  let rpc := GetServerListRpc.construct ⟨[.MASTER_SERVICE]⟩
  let w := GetServerListRpc.wait parseFromResponse resp serverList
  (rpc.1, rpc.2 ++ w.1, w.2)

/-- CoordinatorClient::getServerList (source lines 152-159): query with
the union of master and backup capabilities, then wait. -/
def CoordinatorClient.getServerList {α : Type}
    (parseFromResponse : List Nat → Nat → α → α)
    (resp : GetServerListResponse) (serverList : α) :
    GetServerListRequest × List RpcEvent × α × Option ClientException :=
  let rpc := GetServerListRpc.construct ⟨[.MASTER_SERVICE, .BACKUP_SERVICE]⟩
  let w := GetServerListRpc.wait parseFromResponse resp serverList
  (rpc.1, rpc.2 ++ w.1, w.2)

/-! ## GetTabletMap -/

/-- WireFormat::GetTabletMap::Request has no fields beyond the common
header filled by allocHeader. -/
structure GetTabletMapRequest where
  deriving DecidableEq

/-- GetTabletMapRpc::GetTabletMapRpc (source lines 231-237): allocate the
bare header and send; the constructor takes no input beyond the context. -/
def GetTabletMapRpc.construct : GetTabletMapRequest × List RpcEvent :=
  ({}, [.allocHeader .getTabletMap, .send])

/-- Fixed fields of WireFormat::GetTabletMap::Response; the trailer holds
the serialized tablet map of tabletMapLength bytes. -/
structure GetTabletMapResponse where
  status : Nat
  tabletMapLength : Nat
  trailer : List Nat
  deriving DecidableEq

/-- GetTabletMapRpc::wait (source lines 247-257): block for the response,
throw on a non-OK status, else parse the trailer into the caller-supplied
output structure. -/
def GetTabletMapRpc.wait {α : Type} (parseFromResponse : List Nat → Nat → α → α)
    (resp : GetTabletMapResponse) (tabletMap : α) :
    List RpcEvent × α × Option ClientException :=
  ([.waitForResponse],
   if resp.status ≠ STATUS_OK then (tabletMap, some ⟨resp.status⟩)
   else (parseFromResponse resp.trailer resp.tabletMapLength tabletMap, none))

/-- CoordinatorClient::getTabletMap (source lines 215-221): construct the
rpc, then wait. -/
def CoordinatorClient.getTabletMap {α : Type}
    (parseFromResponse : List Nat → Nat → α → α)
    (resp : GetTabletMapResponse) (tabletMap : α) :
    GetTabletMapRequest × List RpcEvent × α × Option ClientException :=
  let rpc := GetTabletMapRpc.construct
  let w := GetTabletMapRpc.wait parseFromResponse resp tabletMap
  (rpc.1, rpc.2 ++ w.1, w.2)

/-! ## The generic wait

HintServerDown, ReassignTabletOwnership, RecoveryMasterFinished and
SetMasterRecoveryInfo have no wait of their own in the source; their
facades call the wait inherited from the rpc wrapper. -/

/-- Modelled from the spec: the inherited completion of an operation with
no result fields (CoordinatorRpcWrapper::wait, not under src/) blocks for
the response and converts a non-success status into the typed failure
carrying that status. -/
def CoordinatorRpcWrapper.wait (status : Nat) :
    List RpcEvent × Option ClientException :=
  ([.waitForResponse],
   if status ≠ STATUS_OK then some ⟨status⟩ else none)

/-! ## HintServerDown -/

/-- Fixed fields of WireFormat::HintServerDown::Request. -/
structure HintServerDownRequest where
  serverId : Nat
  deriving DecidableEq

/-- HintServerDownRpc::HintServerDownRpc (source lines 287-296): fill the
suspected server id and send. -/
def HintServerDownRpc.construct (serverId : ServerId) :
    HintServerDownRequest × List RpcEvent :=
  ({ serverId := serverId.getId },
   [.allocHeader .hintServerDown, .send])

/-- CoordinatorClient::hintServerDown (source lines 270-275): construct
the rpc, then wait. -/
def CoordinatorClient.hintServerDown (serverId : ServerId) (status : Nat) :
    HintServerDownRequest × List RpcEvent × Option ClientException :=
  let rpc := HintServerDownRpc.construct serverId
  let w := CoordinatorRpcWrapper.wait status
  (rpc.1, rpc.2 ++ w.1, w.2)

/-! ## ReassignTabletOwnership -/

/-- Fixed fields of WireFormat::ReassignTabletOwnership::Request. -/
structure ReassignTabletOwnershipRequest where
  tableId : Nat
  firstKeyHash : Nat
  lastKeyHash : Nat
  newOwnerId : Nat
  ctimeSegmentId : Nat
  ctimeSegmentOffset : Nat
  deriving DecidableEq

/-- ReassignTabletOwnershipRpc::ReassignTabletOwnershipRpc (source lines
359-375): fill the six fixed fields and send; there is no trailer. -/
def ReassignTabletOwnershipRpc.construct (tableId firstKeyHash lastKeyHash : Nat)
    (newOwnerId : ServerId) (ctimeSegmentId ctimeSegmentOffset : Nat) :
    ReassignTabletOwnershipRequest × List RpcEvent :=
  ({ tableId := tableId,
     firstKeyHash := firstKeyHash,
     lastKeyHash := lastKeyHash,
     newOwnerId := newOwnerId.getId,
     ctimeSegmentId := ctimeSegmentId,
     ctimeSegmentOffset := ctimeSegmentOffset },
   [.allocHeader .reassignTabletOwnership, .send])

/-- CoordinatorClient::reassignTabletOwnership (source lines 324-332):
construct the rpc, then wait. -/
def CoordinatorClient.reassignTabletOwnership (tableId firstKeyHash lastKeyHash : Nat)
    (newOwnerId : ServerId) (ctimeSegmentId ctimeSegmentOffset : Nat) (status : Nat) :
    ReassignTabletOwnershipRequest × List RpcEvent × Option ClientException :=
  let rpc := ReassignTabletOwnershipRpc.construct tableId firstKeyHash lastKeyHash
      newOwnerId ctimeSegmentId ctimeSegmentOffset
  let w := CoordinatorRpcWrapper.wait status
  (rpc.1, rpc.2 ++ w.1, w.2)

/-! ## RecoveryMasterFinished -/

/-- Fixed fields plus serialized-tablets trailer of
WireFormat::RecoveryMasterFinished::Request.  The tablets structure and
its serializer are external; the serialized bytes are a parameter. -/
structure RecoveryMasterFinishedRequest where
  recoveryId : Nat
  recoveryMasterId : Nat
  tabletsLength : Nat
  successful : Bool
  trailer : List Nat
  deriving DecidableEq

/-- RecoveryMasterFinishedRpc::RecoveryMasterFinishedRpc (source lines
429-442): fill the fixed fields, append the serialized tablets recording
their length, and send. -/
def RecoveryMasterFinishedRpc.construct (recoveryId : Nat)
    (recoveryMasterId : ServerId) (serializedTablets : List Nat)
    (successful : Bool) :
    RecoveryMasterFinishedRequest × List RpcEvent :=
  ({ recoveryId := recoveryId,
     recoveryMasterId := recoveryMasterId.getId,
     tabletsLength := serializedTablets.length,
     successful := successful,
     trailer := serializedTablets },
   [.allocHeader .recoveryMasterFinished,
    .appendRequestBytes serializedTablets, .send])

/-- CoordinatorClient::recoveryMasterFinished (source lines 398-406):
construct the rpc, then wait. -/
def CoordinatorClient.recoveryMasterFinished (recoveryId : Nat)
    (recoveryMasterId : ServerId) (serializedTablets : List Nat)
    (successful : Bool) (status : Nat) :
    RecoveryMasterFinishedRequest × List RpcEvent × Option ClientException :=
  let rpc := RecoveryMasterFinishedRpc.construct recoveryId recoveryMasterId
      serializedTablets successful
  let w := CoordinatorRpcWrapper.wait status
  (rpc.1, rpc.2 ++ w.1, w.2)

/-! ## SetMasterRecoveryInfo -/

/-- Fixed fields plus serialized-recovery-info trailer of
WireFormat::SetMasterRecoveryInfo::Request. -/
structure SetMasterRecoveryInfoRequest where
  serverId : Nat
  infoLength : Nat
  trailer : List Nat
  deriving DecidableEq

/-- SetMasterRecoveryInfoRpc::SetMasterRecoveryInfoRpc (source lines
484-496): fill the server id, append the serialized recovery info
recording its length, and send. -/
def SetMasterRecoveryInfoRpc.construct (serverId : ServerId)
    (serializedRecoveryInfo : List Nat) :
    SetMasterRecoveryInfoRequest × List RpcEvent :=
  ({ serverId := serverId.getId,
     infoLength := serializedRecoveryInfo.length,
     trailer := serializedRecoveryInfo },
   [.allocHeader .setMasterRecoveryInfo,
    .appendRequestBytes serializedRecoveryInfo, .send])

/-- CoordinatorClient::setMasterRecoveryInfo (source lines 459-467):
construct the rpc, then wait. -/
def CoordinatorClient.setMasterRecoveryInfo (serverId : ServerId)
    (serializedRecoveryInfo : List Nat) (status : Nat) :
    SetMasterRecoveryInfoRequest × List RpcEvent × Option ClientException :=
  let rpc := SetMasterRecoveryInfoRpc.construct serverId serializedRecoveryInfo
  let w := CoordinatorRpcWrapper.wait status
  (rpc.1, rpc.2 ++ w.1, w.2)

/-! ## VerifyMembership -/

/-- Fixed fields of WireFormat::VerifyMembership::Request. -/
structure VerifyMembershipRequest where
  serverId : Nat
  deriving DecidableEq

/-- VerifyMembershipRpc::VerifyMembershipRpc (source lines 536-549): log
a warning, fill the server id and send. -/
def VerifyMembershipRpc.construct (serverId : ServerId) :
    VerifyMembershipRequest × List RpcEvent :=
  ({ serverId := serverId.getId },
   [.logWarning, .allocHeader .verifyMembership, .send])

/-- The observable outcome of VerifyMembershipRpc::wait: normal return,
process exit with a code, or a raised typed exception. -/
inductive VerifyMembershipOutcome where
  | ok
  | exited (code : Nat)
  | raised (e : ClientException)
  deriving DecidableEq

/-- VerifyMembershipRpc::wait (source lines 562-577): block for the
response; on a non-OK status, if it is STATUS_CALLER_NOT_IN_CLUSTER and
suicideOnFailure is set, log and exit(1), otherwise throw the typed
exception carrying the status; on STATUS_OK return normally. -/
def VerifyMembershipRpc.wait (suicideOnFailure : Bool) (status : Nat) :
    List RpcEvent × VerifyMembershipOutcome :=
  if status ≠ STATUS_OK then
    if status = STATUS_CALLER_NOT_IN_CLUSTER ∧ suicideOnFailure = true then
      ([.waitForResponse, .logWarning], .exited 1)
    else
      ([.waitForResponse], .raised ⟨status⟩)
  else
    ([.waitForResponse], .ok)

/-- CoordinatorClient::verifyMembership (source lines 515-523): construct
the rpc, then wait with the caller-supplied suicideOnFailure policy. -/
def CoordinatorClient.verifyMembership (serverId : ServerId)
    (suicideOnFailure : Bool) (status : Nat) :
    VerifyMembershipRequest × List RpcEvent × VerifyMembershipOutcome :=
  let rpc := VerifyMembershipRpc.construct serverId
  let w := VerifyMembershipRpc.wait suicideOnFailure status
  (rpc.1, rpc.2 ++ w.1, w.2)

/-! ## Coordinator-side identity assignment

The coordinator's internal decision logic is not under src/; the client
only decodes the ServerId from the enlist response.  The identity
invariant the spec states for enlistment is settled against the following
model. -/

/-- Modelled from the spec: the coordinator's enlistment state.  It
tracks every identity ever issued in this cluster lifetime, the currently
live identities, and a strictly increasing generation counter. -/
structure CoordinatorState where
  issued : List ServerId
  live : List ServerId
  nextGeneration : Nat

/-- Modelled from the spec: a ServerId combines a low, reused sequence
slot with a strictly increasing generation in one 64-bit value. -/
def makeServerId (slot generation : Nat) : ServerId :=
  ⟨slot % 2 ^ 32 + generation % 2 ^ 32 * 2 ^ 32⟩

/-- Modelled from the spec: coordinator-side handling of an enlist
request.  If the replaces identity is a live member it is fully removed
first; the enlisting server is then admitted under a fresh identity built
from a (possibly reused) sequence slot and the next generation. -/
def coordinatorEnlist (st : CoordinatorState) (replacesId : ServerId)
    (slot : Nat) : ServerId × CoordinatorState :=
  let fresh := makeServerId slot st.nextGeneration
  (fresh,
   { issued := fresh :: st.issued,
     live := fresh :: st.live.filter (fun s => decide (s ≠ replacesId)),
     nextGeneration := st.nextGeneration + 1 })

/-- The generation-bound invariant: every identity issued so far carries
a generation strictly below the coordinator's next generation. -/
def IdsBounded (st : CoordinatorState) : Prop :=
  ∀ sid ∈ st.issued, sid.generationNumber < st.nextGeneration

/-! ## MockDriver (test network double) -/

/-- Driver::Received: an incoming packet as handed to the transport.  The
driver field records which driver produced it (a driver is identified by
a number standing for its address). -/
structure Received where
  addr : Nat
  addrlen : Nat
  payload : List Nat
  len : Nat
  driver : Option Nat
  deriving DecidableEq

/-- The MockDriver state touched by tryRecvPacket and setInput: the
staged input packet (a null pointer is none) and the call counters. -/
structure MockDriver where
  inputReceived : Option Received
  sendPacketCount : Nat
  tryRecvPacketCount : Nat
  releaseCount : Nat
  deriving DecidableEq

/-- MockDriver::MockDriver (source lines 25-33): all counters start at
zero and no input is staged. -/
def MockDriver.construct : MockDriver :=
  { inputReceived := none,
    sendPacketCount := 0,
    tryRecvPacketCount := 0,
    releaseCount := 0 }

/-- MockDriver::tryRecvPacket (source lines 124-141): bump the call
counter; if no input is staged return false leaving the output untouched;
otherwise copy the staged input's addrlen, payload and len into the
output, set the output's driver to this driver, clear the staged input
and return true.  self is this driver's identity. -/
def MockDriver.tryRecvPacket (self : Nat) (d : MockDriver)
    (received : Received) : MockDriver × Received × Bool :=
  let d1 : MockDriver := { d with tryRecvPacketCount := d.tryRecvPacketCount + 1 }
  match d1.inputReceived with
  | none => (d1, received, false)
  | some inp =>
      ({ d1 with inputReceived := none },
       { received with
           addrlen := inp.addrlen,
           payload := inp.payload,
           len := inp.len,
           driver := some self },
       true)

/-- MockDriver::setInput (source lines 152-156): stage an input packet to
be returned by the next tryRecvPacket. -/
def MockDriver.setInput (d : MockDriver) (received : Option Received) :
    MockDriver :=
  { d with inputReceived := received }

/-! ## The spec's reading of the synchronous facade -/

/-- Stated from the spec's words, for comparison with the facades above:
the synchronous facade for each operation is exactly complete(issue(...)) —
the request and events of the issue phase followed by the events and
result of the complete phase, nothing else. -/
def specSyncFacade {ρ τ : Type} (issued : ρ × List RpcEvent)
    (completed : List RpcEvent × τ) : ρ × List RpcEvent × τ :=
  (issued.1, issued.2 ++ completed.1, completed.2)

/-! # Theorems -/

theorem strncpy_of_no_null (src : List Nat) (h : ∀ b ∈ src, b ≠ 0) :
    strncpy src (src.length + 1) = src ++ [0] := by
  unfold strncpy
  rw [List.takeWhile_eq_self_iff.mpr (by simpa using h)]
  rw [List.take_append 1]
  simp

/-- Claim C3: each synchronous facade is observably equal to constructing
the asynchronous operation instance and then immediately calling its
completion — same request, same event sequence, same result. -/
theorem sync_facades_are_issue_then_complete :
    (∀ (replacesId : ServerId) (serviceMask : ServiceMask)
       (locator : List Nat) (readSpeed : Nat) (resp : EnlistServerResponse),
      CoordinatorClient.enlistServer replacesId serviceMask locator readSpeed resp =
        specSyncFacade
          (EnlistServerRpc.construct replacesId serviceMask locator readSpeed)
          (EnlistServerRpc.wait resp))
    ∧ (∀ (α : Type) (parse : List Nat → Nat → α → α)
         (resp : GetServerListResponse) (out : α),
      CoordinatorClient.getBackupList parse resp out =
        specSyncFacade (GetServerListRpc.construct ⟨[.BACKUP_SERVICE]⟩)
          (GetServerListRpc.wait parse resp out))
    ∧ (∀ (α : Type) (parse : List Nat → Nat → α → α)
         (resp : GetServerListResponse) (out : α),
      CoordinatorClient.getMasterList parse resp out =
        specSyncFacade (GetServerListRpc.construct ⟨[.MASTER_SERVICE]⟩)
          (GetServerListRpc.wait parse resp out))
    ∧ (∀ (α : Type) (parse : List Nat → Nat → α → α)
         (resp : GetServerListResponse) (out : α),
      CoordinatorClient.getServerList parse resp out =
        specSyncFacade
          (GetServerListRpc.construct ⟨[.MASTER_SERVICE, .BACKUP_SERVICE]⟩)
          (GetServerListRpc.wait parse resp out))
    ∧ (∀ (α : Type) (parse : List Nat → Nat → α → α)
         (resp : GetTabletMapResponse) (out : α),
      CoordinatorClient.getTabletMap parse resp out =
        specSyncFacade GetTabletMapRpc.construct
          (GetTabletMapRpc.wait parse resp out))
    ∧ (∀ (serverId : ServerId) (status : Nat),
      CoordinatorClient.hintServerDown serverId status =
        specSyncFacade (HintServerDownRpc.construct serverId)
          (CoordinatorRpcWrapper.wait status))
    ∧ (∀ (tableId firstKeyHash lastKeyHash : Nat) (newOwnerId : ServerId)
         (ctimeSegmentId ctimeSegmentOffset status : Nat),
      CoordinatorClient.reassignTabletOwnership tableId firstKeyHash lastKeyHash
          newOwnerId ctimeSegmentId ctimeSegmentOffset status =
        specSyncFacade
          (ReassignTabletOwnershipRpc.construct tableId firstKeyHash lastKeyHash
            newOwnerId ctimeSegmentId ctimeSegmentOffset)
          (CoordinatorRpcWrapper.wait status))
    ∧ (∀ (recoveryId : Nat) (recoveryMasterId : ServerId)
         (serializedTablets : List Nat) (successful : Bool) (status : Nat),
      CoordinatorClient.recoveryMasterFinished recoveryId recoveryMasterId
          serializedTablets successful status =
        specSyncFacade
          (RecoveryMasterFinishedRpc.construct recoveryId recoveryMasterId
            serializedTablets successful)
          (CoordinatorRpcWrapper.wait status))
    ∧ (∀ (serverId : ServerId) (serializedRecoveryInfo : List Nat) (status : Nat),
      CoordinatorClient.setMasterRecoveryInfo serverId serializedRecoveryInfo status =
        specSyncFacade (SetMasterRecoveryInfoRpc.construct serverId serializedRecoveryInfo)
          (CoordinatorRpcWrapper.wait status))
    ∧ (∀ (serverId : ServerId) (suicideOnFailure : Bool) (status : Nat),
      CoordinatorClient.verifyMembership serverId suicideOnFailure status =
        specSyncFacade (VerifyMembershipRpc.construct serverId)
          (VerifyMembershipRpc.wait suicideOnFailure status)) := by
  refine ⟨?_, ?_, ?_, ?_, ?_, ?_, ?_, ?_, ?_, ?_⟩ <;> intros <;> rfl

/-- Claim C5: the enlist request's fixed fields carry the replaced id's
64-bit value, the serialized service mask and the read speed; the
serviceLocatorLength field is the locator's length plus one; and the
trailer is exactly the locator's bytes followed by one null byte. -/
theorem enlist_request_encoding (replacesId : ServerId)
    (serviceMask : ServiceMask) (locator : List Nat) (readSpeed : Nat)
    (hlen : locator.length + 1 < 2 ^ 32) (hnn : ∀ b ∈ locator, b ≠ 0) :
    (EnlistServerRpc.construct replacesId serviceMask locator readSpeed).1 =
      { replacesId := replacesId.getId,
        serviceMask := serviceMask.serialize,
        readSpeed := readSpeed,
        serviceLocatorLength := locator.length + 1,
        trailer := locator ++ [0] } := by
  simp only [EnlistServerRpc.construct, Nat.mod_eq_of_lt hlen,
    strncpy_of_no_null locator hnn]

theorem enlist_request_encoding_witness :
    (([] : List Nat).length + 1 < 2 ^ 32 ∧ ∀ b ∈ ([] : List Nat), b ≠ 0)
    ∧ (EnlistServerRpc.construct ⟨1⟩ ⟨[.MASTER_SERVICE]⟩ [] 100).1 =
      { replacesId := 1,
        serviceMask := 1,
        readSpeed := 100,
        serviceLocatorLength := 1,
        trailer := [0] } :=
  ⟨⟨by decide, by decide⟩,
   enlist_request_encoding ⟨1⟩ ⟨[.MASTER_SERVICE]⟩ [] 100
     (by decide) (by decide)⟩

/-- Claim C6: the reassign-tablet-ownership request's fixed fields are
exactly the six inputs unchanged (the ServerId as its 64-bit value), and
no variable-length trailer is appended. -/
theorem reassign_request_encoding (tableId firstKeyHash lastKeyHash : Nat)
    (newOwnerId : ServerId) (ctimeSegmentId ctimeSegmentOffset : Nat) :
    (ReassignTabletOwnershipRpc.construct tableId firstKeyHash lastKeyHash
        newOwnerId ctimeSegmentId ctimeSegmentOffset).1 =
      { tableId := tableId,
        firstKeyHash := firstKeyHash,
        lastKeyHash := lastKeyHash,
        newOwnerId := newOwnerId.getId,
        ctimeSegmentId := ctimeSegmentId,
        ctimeSegmentOffset := ctimeSegmentOffset }
    ∧ ∀ bytes, RpcEvent.appendRequestBytes bytes ∉
        (ReassignTabletOwnershipRpc.construct tableId firstKeyHash lastKeyHash
          newOwnerId ctimeSegmentId ctimeSegmentOffset).2 := by
  refine ⟨rfl, ?_⟩
  intro bytes
  simp [ReassignTabletOwnershipRpc.construct]

/-- Claim C1: verify-membership completion exits the process exactly when
the status is the distinguished caller-not-in-cluster code and the
self-termination flag is set; with the flag unset that status raises the
typed exception instead; every other non-OK status raises the typed
exception carrying that status regardless of the flag, and the process
never exits for any other status. -/
theorem verifyMembership_wait_suicide_policy (status : Nat) (flag : Bool) :
    (status = STATUS_CALLER_NOT_IN_CLUSTER → flag = true →
      (VerifyMembershipRpc.wait flag status).2 = .exited 1)
    ∧ (status = STATUS_CALLER_NOT_IN_CLUSTER → flag = false →
      (VerifyMembershipRpc.wait flag status).2 = .raised ⟨status⟩)
    ∧ (status ≠ STATUS_OK → status ≠ STATUS_CALLER_NOT_IN_CLUSTER →
      (VerifyMembershipRpc.wait flag status).2 = .raised ⟨status⟩)
    ∧ (∀ code, (VerifyMembershipRpc.wait flag status).2 =
        VerifyMembershipOutcome.exited code →
      status = STATUS_CALLER_NOT_IN_CLUSTER ∧ flag = true) := by
  unfold VerifyMembershipRpc.wait
  split_ifs with h1 h2 <;>
    simp_all [STATUS_OK, STATUS_CALLER_NOT_IN_CLUSTER]

theorem verifyMembership_wait_suicide_policy_witness :
    (VerifyMembershipRpc.wait true STATUS_CALLER_NOT_IN_CLUSTER).2 = .exited 1
    ∧ (VerifyMembershipRpc.wait false STATUS_CALLER_NOT_IN_CLUSTER).2 =
        .raised ⟨STATUS_CALLER_NOT_IN_CLUSTER⟩
    ∧ (VerifyMembershipRpc.wait true 4).2 = .raised ⟨4⟩ :=
  ⟨(verifyMembership_wait_suicide_policy STATUS_CALLER_NOT_IN_CLUSTER true).1
      rfl rfl,
   (verifyMembership_wait_suicide_policy STATUS_CALLER_NOT_IN_CLUSTER false).2.1
      rfl rfl,
   (verifyMembership_wait_suicide_policy 4 true).2.2.1
      (by decide) (by decide)⟩

/-- Claim C2: every completion raises the typed exception carrying
exactly the decoded status whenever it is not STATUS_OK, and raises
nothing when it is STATUS_OK — for the enlist, server-list and tablet-map
waits of the source, and for the inherited wait the remaining operations
use. -/
theorem wait_status_propagation :
    (∀ resp : EnlistServerResponse,
      (resp.status ≠ STATUS_OK →
        (EnlistServerRpc.wait resp).2 = .error ⟨resp.status⟩)
      ∧ (resp.status = STATUS_OK →
        (EnlistServerRpc.wait resp).2 = .ok ⟨resp.serverId⟩))
    ∧ (∀ (α : Type) (parse : List Nat → Nat → α → α)
        (resp : GetServerListResponse) (out : α),
      (resp.status ≠ STATUS_OK →
        (GetServerListRpc.wait parse resp out).2.2 = some ⟨resp.status⟩)
      ∧ (resp.status = STATUS_OK →
        (GetServerListRpc.wait parse resp out).2.2 = none))
    ∧ (∀ (α : Type) (parse : List Nat → Nat → α → α)
        (resp : GetTabletMapResponse) (out : α),
      (resp.status ≠ STATUS_OK →
        (GetTabletMapRpc.wait parse resp out).2.2 = some ⟨resp.status⟩)
      ∧ (resp.status = STATUS_OK →
        (GetTabletMapRpc.wait parse resp out).2.2 = none))
    ∧ (∀ status : Nat,
      (status ≠ STATUS_OK →
        (CoordinatorRpcWrapper.wait status).2 = some ⟨status⟩)
      ∧ (status = STATUS_OK →
        (CoordinatorRpcWrapper.wait status).2 = none)) := by
  refine ⟨?_, ?_, ?_, ?_⟩ <;> intros <;>
    exact ⟨fun h => by
        simp [EnlistServerRpc.wait, GetServerListRpc.wait,
          GetTabletMapRpc.wait, CoordinatorRpcWrapper.wait, h],
      fun h => by
        simp [EnlistServerRpc.wait, GetServerListRpc.wait,
          GetTabletMapRpc.wait, CoordinatorRpcWrapper.wait, h]⟩

theorem wait_status_propagation_witness :
    (EnlistServerRpc.wait ⟨4, 7⟩).2 = .error ⟨4⟩
    ∧ (EnlistServerRpc.wait ⟨0, 7⟩).2 = .ok ⟨7⟩
    ∧ (GetServerListRpc.wait (fun _ _ x => x + 1) ⟨4, 0, []⟩ 0).2.2 = some ⟨4⟩
    ∧ (GetTabletMapRpc.wait (fun _ _ x => x + 1) ⟨0, 0, []⟩ 5).2.2 = none
    ∧ (CoordinatorRpcWrapper.wait 4).2 = some ⟨4⟩ :=
  ⟨(wait_status_propagation.1 ⟨4, 7⟩).1 (by decide),
   (wait_status_propagation.1 ⟨0, 7⟩).2 rfl,
   (wait_status_propagation.2.1 Nat (fun _ _ x => x + 1) ⟨4, 0, []⟩ 0).1
      (by decide),
   (wait_status_propagation.2.2.1 Nat (fun _ _ x => x + 1) ⟨0, 0, []⟩ 5).2 rfl,
   (wait_status_propagation.2.2.2 4).1 (by decide)⟩

/-- Claim C7: on a non-OK status the server-list and tablet-map waits
leave the caller-supplied output structure unchanged and never decode the
response trailer — the result does not depend on the parser at all. -/
theorem query_wait_error_skips_parsing :
    (∀ (α : Type) (parse other : List Nat → Nat → α → α)
        (resp : GetServerListResponse) (out : α),
      resp.status ≠ STATUS_OK →
      (GetServerListRpc.wait parse resp out).2.1 = out
      ∧ GetServerListRpc.wait parse resp out =
          GetServerListRpc.wait other resp out)
    ∧ (∀ (α : Type) (parse other : List Nat → Nat → α → α)
        (resp : GetTabletMapResponse) (out : α),
      resp.status ≠ STATUS_OK →
      (GetTabletMapRpc.wait parse resp out).2.1 = out
      ∧ GetTabletMapRpc.wait parse resp out =
          GetTabletMapRpc.wait other resp out) := by
  constructor <;> intro α parse other resp out h <;>
    simp [GetServerListRpc.wait, GetTabletMapRpc.wait, h]

theorem query_wait_error_skips_parsing_witness :
    (GetServerListRpc.wait (fun _ _ x => x + 1) ⟨4, 0, [9]⟩ 7).2.1 = 7
    ∧ GetServerListRpc.wait (fun _ _ x => x + 1) ⟨4, 0, [9]⟩ 7 =
        GetServerListRpc.wait (fun _ _ _ => 99) ⟨4, 0, [9]⟩ 7 :=
  query_wait_error_skips_parsing.1 Nat (fun _ _ x => x + 1) (fun _ _ _ => 99)
    ⟨4, 0, [9]⟩ 7 (by decide)

/-- Claim C8: getBackupList queries with exactly the backup capability,
getMasterList with exactly the master capability, getServerList with the
union of master and backup, the chosen capability set is serialized into
the request's serviceMask field, and the tablet-map request carries
nothing beyond the operation header. -/
theorem serverList_capability_filters :
    (∀ (α : Type) (parse : List Nat → Nat → α → α)
        (resp : GetServerListResponse) (out : α),
      (CoordinatorClient.getBackupList parse resp out).1 =
        ⟨ServiceMask.serialize ⟨[.BACKUP_SERVICE]⟩⟩)
    ∧ (∀ (α : Type) (parse : List Nat → Nat → α → α)
        (resp : GetServerListResponse) (out : α),
      (CoordinatorClient.getMasterList parse resp out).1 =
        ⟨ServiceMask.serialize ⟨[.MASTER_SERVICE]⟩⟩)
    ∧ (∀ (α : Type) (parse : List Nat → Nat → α → α)
        (resp : GetServerListResponse) (out : α),
      (CoordinatorClient.getServerList parse resp out).1 =
        ⟨ServiceMask.serialize ⟨[.MASTER_SERVICE, .BACKUP_SERVICE]⟩⟩)
    ∧ ServiceMask.serialize ⟨[.BACKUP_SERVICE]⟩ = 2
    ∧ ServiceMask.serialize ⟨[.MASTER_SERVICE]⟩ = 1
    ∧ ServiceMask.serialize ⟨[.MASTER_SERVICE, .BACKUP_SERVICE]⟩ = 3
    ∧ GetTabletMapRpc.construct.1 = {} := by
  refine ⟨?_, ?_, ?_, by decide, by decide, by decide, rfl⟩ <;>
    intros <;> rfl

/-- Claim C9: issuing an operation (its constructor) performs only header
allocation, trailer appends and the non-blocking send — never the
blocking wait for a response; the blocking wait is performed exactly by
the completion call. -/
theorem issue_never_blocks :
    (∀ (replacesId : ServerId) (serviceMask : ServiceMask)
        (locator : List Nat) (readSpeed : Nat),
      RpcEvent.waitForResponse ∉
        (EnlistServerRpc.construct replacesId serviceMask locator readSpeed).2)
    ∧ (∀ services : ServiceMask,
      RpcEvent.waitForResponse ∉ (GetServerListRpc.construct services).2)
    ∧ RpcEvent.waitForResponse ∉ GetTabletMapRpc.construct.2
    ∧ (∀ serverId : ServerId,
      RpcEvent.waitForResponse ∉ (HintServerDownRpc.construct serverId).2)
    ∧ (∀ (tableId firstKeyHash lastKeyHash : Nat) (newOwnerId : ServerId)
        (ctimeSegmentId ctimeSegmentOffset : Nat),
      RpcEvent.waitForResponse ∉
        (ReassignTabletOwnershipRpc.construct tableId firstKeyHash lastKeyHash
          newOwnerId ctimeSegmentId ctimeSegmentOffset).2)
    ∧ (∀ (recoveryId : Nat) (recoveryMasterId : ServerId)
        (serializedTablets : List Nat) (successful : Bool),
      RpcEvent.waitForResponse ∉
        (RecoveryMasterFinishedRpc.construct recoveryId recoveryMasterId
          serializedTablets successful).2)
    ∧ (∀ (serverId : ServerId) (serializedRecoveryInfo : List Nat),
      RpcEvent.waitForResponse ∉
        (SetMasterRecoveryInfoRpc.construct serverId serializedRecoveryInfo).2)
    ∧ (∀ serverId : ServerId,
      RpcEvent.waitForResponse ∉ (VerifyMembershipRpc.construct serverId).2)
    ∧ (∀ resp : EnlistServerResponse,
      RpcEvent.waitForResponse ∈ (EnlistServerRpc.wait resp).1)
    ∧ (∀ (α : Type) (parse : List Nat → Nat → α → α)
        (resp : GetServerListResponse) (out : α),
      RpcEvent.waitForResponse ∈ (GetServerListRpc.wait parse resp out).1)
    ∧ (∀ (α : Type) (parse : List Nat → Nat → α → α)
        (resp : GetTabletMapResponse) (out : α),
      RpcEvent.waitForResponse ∈ (GetTabletMapRpc.wait parse resp out).1)
    ∧ (∀ status : Nat,
      RpcEvent.waitForResponse ∈ (CoordinatorRpcWrapper.wait status).1)
    ∧ (∀ (flag : Bool) (status : Nat),
      RpcEvent.waitForResponse ∈ (VerifyMembershipRpc.wait flag status).1) := by
  refine ⟨?_, ?_, ?_, ?_, ?_, ?_, ?_, ?_, ?_, ?_, ?_, ?_, ?_⟩ <;> intros <;>
    first
      | simp [EnlistServerRpc.construct, GetServerListRpc.construct,
          GetTabletMapRpc.construct, HintServerDownRpc.construct,
          ReassignTabletOwnershipRpc.construct,
          RecoveryMasterFinishedRpc.construct,
          SetMasterRecoveryInfoRpc.construct, VerifyMembershipRpc.construct,
          EnlistServerRpc.wait, GetServerListRpc.wait, GetTabletMapRpc.wait,
          CoordinatorRpcWrapper.wait]
      | (unfold VerifyMembershipRpc.wait; split_ifs <;> simp)

/-- Claim C4: an enlist never reissues a ServerId: under the generation
invariant, the identity returned for an enlist is distinct from every
identity issued earlier in the cluster lifetime (the replaced identity
included), the invariant is preserved, and distinctness of all issued
identities is preserved. -/
theorem enlist_never_reissues_serverId (st : CoordinatorState)
    (replacesId : ServerId) (slot : Nat)
    (hbound : IdsBounded st) (hgen : st.nextGeneration < 2 ^ 32) :
    (coordinatorEnlist st replacesId slot).1 ∉ st.issued
    ∧ IdsBounded (coordinatorEnlist st replacesId slot).2
    ∧ (st.issued.Nodup → (coordinatorEnlist st replacesId slot).2.issued.Nodup)
    ∧ (replacesId ∈ st.issued →
      (coordinatorEnlist st replacesId slot).1 ≠ replacesId) := by
  have hgenEq : (makeServerId slot st.nextGeneration).generationNumber =
      st.nextGeneration := by
    unfold makeServerId ServerId.generationNumber
    rw [Nat.mod_eq_of_lt hgen]
    rw [Nat.add_mul_div_right _ _ (show 0 < 2 ^ 32 by norm_num)]
    rw [Nat.div_eq_of_lt (Nat.mod_lt _ (by norm_num))]
    omega
  have hfresh : makeServerId slot st.nextGeneration ∉ st.issued := by
    intro hmem
    have hlt := hbound _ hmem
    rw [hgenEq] at hlt
    exact absurd hlt (lt_irrefl _)
  refine ⟨hfresh, ?_, ?_, ?_⟩
  · intro sid hsid
    have hsid2 : sid ∈ makeServerId slot st.nextGeneration :: st.issued := hsid
    show sid.generationNumber < st.nextGeneration + 1
    rcases List.mem_cons.mp hsid2 with h | h
    · rw [h, hgenEq]; omega
    · exact Nat.lt_succ_of_lt (hbound _ h)
  · intro hnd
    show (makeServerId slot st.nextGeneration :: st.issued).Nodup
    exact List.nodup_cons.mpr ⟨hfresh, hnd⟩
  · intro hmem heq
    apply hfresh
    have heq2 : makeServerId slot st.nextGeneration = replacesId := heq
    rw [heq2]
    exact hmem

theorem enlist_never_reissues_serverId_witness :
    (IdsBounded ⟨[⟨5⟩], [⟨5⟩], 1⟩ ∧ 1 < 2 ^ 32)
    ∧ ((coordinatorEnlist ⟨[⟨5⟩], [⟨5⟩], 1⟩ ⟨5⟩ 5).1 ∉ [(⟨5⟩ : ServerId)]
      ∧ IdsBounded (coordinatorEnlist ⟨[⟨5⟩], [⟨5⟩], 1⟩ ⟨5⟩ 5).2
      ∧ (([(⟨5⟩ : ServerId)]).Nodup →
        (coordinatorEnlist ⟨[⟨5⟩], [⟨5⟩], 1⟩ ⟨5⟩ 5).2.issued.Nodup)
      ∧ ((⟨5⟩ : ServerId) ∈ [(⟨5⟩ : ServerId)] →
        (coordinatorEnlist ⟨[⟨5⟩], [⟨5⟩], 1⟩ ⟨5⟩ 5).1 ≠ ⟨5⟩)) :=
  ⟨⟨by unfold IdsBounded; decide, by norm_num⟩,
   enlist_never_reissues_serverId ⟨[⟨5⟩], [⟨5⟩], 1⟩ ⟨5⟩ 5
     (by unfold IdsBounded; decide) (by norm_num)⟩

/-- Claim C10: MockDriver::tryRecvPacket delivers each staged input at
most once: with nothing staged it returns false and leaves the output
untouched; with a staged input it copies the input's addrlen, payload and
len into the output, sets the output's driver to this driver, clears the
staged input and returns true, so an immediately following call returns
false. -/
theorem tryRecvPacket_delivers_once (self : Nat) (d : MockDriver)
    (received : Received) :
    (d.inputReceived = none →
      MockDriver.tryRecvPacket self d received =
        ({ d with tryRecvPacketCount := d.tryRecvPacketCount + 1 },
         received, false))
    ∧ (∀ inp, d.inputReceived = some inp →
      MockDriver.tryRecvPacket self d received =
        ({ d with inputReceived := none,
                  tryRecvPacketCount := d.tryRecvPacketCount + 1 },
         { received with
             addrlen := inp.addrlen,
             payload := inp.payload,
             len := inp.len,
             driver := some self },
         true))
    ∧ (∀ inp, d.inputReceived = some inp →
      (MockDriver.tryRecvPacket self
        (MockDriver.tryRecvPacket self d received).1 received).2.2 = false) := by
  refine ⟨?_, ?_, ?_⟩
  · intro h
    simp [MockDriver.tryRecvPacket, h]
  · intro inp h
    simp [MockDriver.tryRecvPacket, h]
  · intro inp h
    simp [MockDriver.tryRecvPacket, h]

theorem tryRecvPacket_delivers_once_witness :
    ((⟨some ⟨1, 2, [5, 6], 2, none⟩, 0, 3, 0⟩ : MockDriver).inputReceived =
      some ⟨1, 2, [5, 6], 2, none⟩)
    ∧ MockDriver.tryRecvPacket 42 ⟨some ⟨1, 2, [5, 6], 2, none⟩, 0, 3, 0⟩
        ⟨9, 9, [7], 1, none⟩ =
      (⟨none, 0, 4, 0⟩, ⟨9, 2, [5, 6], 2, some 42⟩, true)
    ∧ (MockDriver.tryRecvPacket 42
        (MockDriver.tryRecvPacket 42 ⟨some ⟨1, 2, [5, 6], 2, none⟩, 0, 3, 0⟩
          ⟨9, 9, [7], 1, none⟩).1 ⟨9, 9, [7], 1, none⟩).2.2 = false :=
  ⟨rfl,
   (tryRecvPacket_delivers_once 42 ⟨some ⟨1, 2, [5, 6], 2, none⟩, 0, 3, 0⟩
      ⟨9, 9, [7], 1, none⟩).2.1 ⟨1, 2, [5, 6], 2, none⟩ rfl,
   (tryRecvPacket_delivers_once 42 ⟨some ⟨1, 2, [5, 6], 2, none⟩, 0, 3, 0⟩
      ⟨9, 9, [7], 1, none⟩).2.2 ⟨1, 2, [5, 6], 2, none⟩ rfl⟩

end RAMCloud
